import Mathlib

/-!
Verification of the camera-session lifecycle and message-processing logic of
the alloy-echo-vision repository, as a shallow embedding in Lean 4.

The repository contains several divergent implementations of the same
`useCamera` hook.  Each variant is embedded in its own namespace:

* `UseCameraHook`    — `src/hooks/useCamera.ts` (no timeout, streamRef based)
* `UseCameraTimeout` — the timeout variant (3000 ms timer; the source file
  whose camera-init function is named `initializeCamera` with a `timeoutRef`)
* `UseCameraSimple`  — the variant whose `useEffect` depends on both
  `enabled` and `facingMode` and calls `startCamera` for any change
* `UseCameraVariant2` — the 5000 ms-timeout variant with the full error
  branch table (NotReadable / Overconstrained / NotSupported)
* `AIProc`           — the `AIProcessor` message router

Modelling conventions, shared by all variants:

* React state setters become functional updates of an explicit state record;
  a synchronous block of the source (code between two `await` points, or a
  whole callback) is one atomic step, matching the single-threaded event
  loop of the host.
* `navigator.mediaDevices.getUserMedia` is the opaque device capability of
  the spec (`open(constraints) -> Promise<StreamHandle> | Error{name}`).
  Each issued open call gets the next natural number as its id, recorded in
  `pending`; the handle a successful call returns is identified with the
  call id.  `opened` records handles the device has produced, `released`
  records handles whose tracks were stopped (`track.stop()` is applied to
  every track of a handle unconditionally, so release is modelled at handle
  granularity).
* Rejections of the device call carry `ErrInfo` (a name and a message),
  the shape the spec gives the device capability's errors (`Error{name}`).
* `setTimeout` / `clearTimeout` become an `Option Nat` holding the armed
  timer's id; a `timerFire` event is only effective while a timer is armed.
-/

namespace AlloyEcho

/-- Facing mode of the capture device preference (`'user' | 'environment'`). -/
inductive FacingMode
  | user
  | environment
deriving DecidableEq, Repr

/-- The data carried by a rejection of the device-open call: the error
name (`err.name`) and its human-readable message (`err.message`). -/
structure ErrInfo where
  name : String
  message : String
deriving DecidableEq, Repr

/-- Outcome of one device-open call: the device either produces a handle
(whose id is the call id) or rejects with an error. -/
inductive DevResult
  | ok
  | fail (e : ErrInfo)
deriving DecidableEq, Repr

/-- Is `pat` an initial segment of `s` (character lists)? -/
def isPrefixL : List Char → List Char → Bool
  | [], _ => true
  | _ :: _, [] => false
  | a :: as, b :: bs => a == b && isPrefixL as bs

/-- Does the character list `s` contain `pat` as a contiguous substring? -/
def containsSubL (pat : List Char) : List Char → Bool
  | [] => isPrefixL pat []
  | c :: rest => isPrefixL pat (c :: rest) || containsSubL pat rest

/-- Does string `s` contain `pat` as a substring (JS `String.includes`)? -/
def containsSub (pat s : String) : Bool :=
  containsSubL pat.toList s.toList

/-- The apostrophe character, used to assemble the source's message strings. -/
def apos : String := String.singleton (Char.ofNat 39)

namespace UseCameraHook

/-! Embedding of `src/hooks/useCamera.ts`.  In this variant `streamRef` and
the `stream` React state are always assigned together (installed together in
`startCamera`, cleared together in `stopCamera`), so a single field models
both.  The hook reacts to `enabled` / `facingMode` (the session's
device preference) through its callers invoking `startCamera`; the
constraints object is not otherwise observable, so the facing mode does not
appear in this variant's state. -/

/-- State of the `useCamera` hook of `src/hooks/useCamera.ts`, together with
the device-capability accounting used by the spec's 1:1 open/release
property. -/
structure CamState where
  /-- `streamRef.current` (and the `stream` state, which mirrors it). -/
  streamRef : Option Nat
  /-- the `error` state -/
  error : String
  /-- the `isLoading` state -/
  isLoading : Bool
  /-- the `isReady` state -/
  isReady : Bool
  /-- ids of in-flight `getUserMedia` calls issued by `startCamera` -/
  pending : List Nat
  /-- ids of in-flight `getUserMedia` probe calls issued by `requestPermission` -/
  probePending : List Nat
  /-- handles the device capability has produced so far -/
  opened : List Nat
  /-- handles whose tracks have been stopped -/
  released : List Nat
  /-- number of device-open calls issued so far (also the next call id) -/
  openCalls : Nat
deriving DecidableEq, Repr

/-- The initial hook state: no stream, no error, idle. -/
def initState : CamState :=
  { streamRef := none, error := "", isLoading := false, isReady := false,
    pending := [], probePending := [], opened := [], released := [],
    openCalls := 0 }

/-- `stopCamera` (useCamera.ts lines 16-24): stop the tracks of the current
stream if any, null the ref, clear `stream`, `isReady`, `isLoading`. -/
def stopCamera (s : CamState) : CamState :=
  { s with
      released := s.released ++ s.streamRef.toList,
      streamRef := none,
      isReady := false,
      isLoading := false }

/-- Error-message mapping of `startCamera`'s catch block (useCamera.ts
lines 81-89), applied when the rejection is an `Error`. -/
def startCameraErrorMessage (name : String) : String :=
  if name = "NotAllowedError" then
    "Camera access denied. Click \"Grant Permission\" below."
  else if name = "NotFoundError" then
    "No camera found on this device."
  else
    "Unable to access camera. Please try again."

/-- The synchronous prefix of `startCamera` (useCamera.ts lines 43-67):
if not enabled, just `stopCamera`; otherwise clear the error, set loading,
clear ready, `stopCamera()` (note: this resets `isLoading` to false again,
exactly as the source does), then issue the device-open call, which becomes
pending. -/
def startCameraSync (enabled : Bool) (s : CamState) : CamState :=
  if enabled then
    let s1 : CamState := { s with error := "", isLoading := true, isReady := false }
    let s2 := stopCamera s1
    { s2 with pending := s2.pending ++ [s2.openCalls], openCalls := s2.openCalls + 1 }
  else
    stopCamera s

/-- Continuation of `startCamera` after `getUserMedia` resolves with a
stream (useCamera.ts lines 67-74): install the handle into the ref and the
`stream` state — without releasing whatever handle the ref held — clear
loading, set ready.  Only a pending call can resolve. -/
def resolveOpenOk (id : Nat) (s : CamState) : CamState :=
  if s.pending.contains id then
    { s with
        pending := s.pending.filter (fun j => j != id),
        opened := s.opened ++ [id],
        streamRef := some id,
        isLoading := false,
        isReady := true }
  else s

/-- Continuation of `startCamera` after `getUserMedia` rejects (useCamera.ts
lines 76-90): clear loading and ready and record the mapped message. -/
def resolveOpenErr (id : Nat) (e : ErrInfo) (s : CamState) : CamState :=
  if s.pending.contains id then
    { s with
        pending := s.pending.filter (fun j => j != id),
        isLoading := false,
        isReady := false,
        error := startCameraErrorMessage e.name }
  else s

/-- The synchronous prefix of `requestPermission` (useCamera.ts lines
26-32): clear the error and issue the probe `getUserMedia({ video: true })`
call. -/
def requestPermissionSync (s : CamState) : CamState :=
  { s with
      error := "",
      probePending := s.probePending ++ [s.openCalls],
      openCalls := s.openCalls + 1 }

/-- Continuation of `requestPermission` when the probe call resolves
(useCamera.ts lines 32-36): the temp stream's tracks are stopped
immediately, then `startCamera()` runs (its synchronous prefix, with the
current `enabled`). -/
def resolveProbeOk (id : Nat) (enabled : Bool) (s : CamState) : CamState :=
  if s.probePending.contains id then
    startCameraSync enabled
      { s with
          probePending := s.probePending.filter (fun j => j != id),
          opened := s.opened ++ [id],
          released := s.released ++ [id] }
  else s

/-- Continuation of `requestPermission` when the probe call rejects
(useCamera.ts lines 37-40). -/
def resolveProbeErr (id : Nat) (s : CamState) : CamState :=
  if s.probePending.contains id then
    { s with
        probePending := s.probePending.filter (fun j => j != id),
        error := "Camera permission denied. Please allow camera access." }
  else s

/-- One full `requestPermission` call with no interleaving: issue the probe
and apply the continuation matching the device's answer to it. -/
def requestPermissionRun (enabled : Bool) (r : DevResult) (s : CamState) : CamState :=
  let pid := s.openCalls
  let s1 := requestPermissionSync s
  match r with
  | .ok => resolveProbeOk pid enabled s1
  | .fail _ => resolveProbeErr pid s1

/-- One full `startCamera` call with no interleaving: the synchronous
prefix, then — when a call was issued — the continuation matching the
device's answer. -/
def startCameraRun (enabled : Bool) (r : DevResult) (s : CamState) : CamState :=
  let pid := s.openCalls
  let s1 := startCameraSync enabled s
  if enabled then
    match r with
    | .ok => resolveOpenOk pid s1
    | .fail e => resolveOpenErr pid e s1
  else s1

/-- Handles currently open: produced by the device and not yet released. -/
def openHandles (s : CamState) : List Nat :=
  s.opened.filter (fun h => !(s.released.contains h))

end UseCameraHook

namespace UseCameraTimeout

/-! Embedding of the timeout variant of the hook (the source file with a
3000 ms `timeoutRef` timer whose camera-init function is called
`initializeCamera`; here `initCamera`).  In this variant the `stream` React
state is the only stream reference.  In-flight open calls additionally
record the facing mode of the constraints they were issued with. -/

/-- State of the timeout variant of the hook. -/
structure CamState where
  /-- the `stream` state -/
  stream : Option Nat
  /-- the `error` state -/
  error : String
  /-- the `isLoading` state -/
  isLoading : Bool
  /-- the `isReady` state -/
  isReady : Bool
  /-- the armed timer's id (`timeoutRef.current`), if one is armed -/
  timerArmed : Option Nat
  /-- in-flight device-open calls: call id and the facing mode requested -/
  pending : List (Nat × FacingMode)
  /-- handles the device capability has produced so far -/
  opened : List Nat
  /-- handles whose tracks have been stopped -/
  released : List Nat
  /-- number of device-open calls issued so far (also the next call id) -/
  calls : Nat
  /-- next timer id -/
  nextTimer : Nat
deriving DecidableEq, Repr

/-- The initial hook state. -/
def initState : CamState :=
  { stream := none, error := "", isLoading := false, isReady := false,
    timerArmed := none, pending := [], opened := [], released := [],
    calls := 0, nextTimer := 0 }

/-- The timer callback's message (armed in `initCamera`, 3000 ms). -/
def timeoutMessage : String :=
  "Camera is taking too long to load. Click \"Grant Permission\" to try again."

/-- `stopCamera` of the timeout variant: stop the current stream's tracks,
clear it, clear ready and loading, clear any armed timer. -/
def stopCamera (s : CamState) : CamState :=
  { s with
      released := s.released ++ s.stream.toList,
      stream := none,
      isReady := false,
      isLoading := false,
      timerArmed := none }

/-- Error-message mapping of `initCamera`'s catch block, applied when the
rejection is an `Error` (names `NotAllowedError`, `NotFoundError`,
`NotReadableError`, otherwise the generic retry message). -/
def initCameraErrorMessage (name : String) : String :=
  if name = "NotAllowedError" then
    "Camera access denied. Click \"Grant Permission\" to allow camera access."
  else if name = "NotFoundError" then
    "No camera found. Please connect a camera device."
  else if name = "NotReadableError" then
    "Camera is being used by another application. Please close other camera apps."
  else
    "Unable to access camera. Click \"Grant Permission\" to try again."

/-- The synchronous prefix of `initCamera`: return immediately when not
enabled; otherwise clear the error, set loading, clear ready, re-arm the
3000 ms timer, stop and clear any current stream, then — when `getUserMedia`
exists (`supported`) — issue the device-open call with the current facing
mode.  When the capability is missing, the thrown `Error` (name `"Error"`)
is caught by the same catch block, which clears the timer and maps it to
the generic message. -/
def initCamera (supported enabled : Bool) (fm : FacingMode) (s : CamState) : CamState :=
  if enabled then
    let s1 : CamState :=
      { s with
          error := "", isLoading := true, isReady := false,
          timerArmed := some s.nextTimer, nextTimer := s.nextTimer + 1 }
    let s2 : CamState :=
      { s1 with released := s1.released ++ s1.stream.toList, stream := none }
    if supported then
      { s2 with pending := s2.pending ++ [(s2.calls, fm)], calls := s2.calls + 1 }
    else
      { s2 with
          isLoading := false, isReady := false, timerArmed := none,
          error := initCameraErrorMessage "Error" }
  else s

/-- The timer firing (only effective while armed): clear loading and record
the "taking too long" message.  The in-flight device call is not cancelled. -/
def timerFire (s : CamState) : CamState :=
  match s.timerArmed with
  | none => s
  | some _ =>
      { s with timerArmed := none, isLoading := false, error := timeoutMessage }

/-- Continuation of `initCamera` after `getUserMedia` resolves with a
stream: clear the timer, install the handle, clear loading, set ready.
Only a pending call can resolve. -/
def resolveOpenOk (id : Nat) (s : CamState) : CamState :=
  if s.pending.any (fun p => p.1 == id) then
    { s with
        pending := s.pending.filter (fun p => p.1 != id),
        opened := s.opened ++ [id],
        timerArmed := none,
        stream := some id,
        isLoading := false,
        isReady := true }
  else s

/-- Continuation of `initCamera` after `getUserMedia` rejects: clear
loading, ready and the timer, record the mapped message. -/
def resolveOpenErr (id : Nat) (e : ErrInfo) (s : CamState) : CamState :=
  if s.pending.any (fun p => p.1 == id) then
    { s with
        pending := s.pending.filter (fun p => p.1 != id),
        isLoading := false,
        isReady := false,
        timerArmed := none,
        error := initCameraErrorMessage e.name }
  else s

/-- The `useEffect` on `enabled`: start the camera when it becomes enabled,
stop it when it becomes disabled. -/
def enabledEffect (supported enabled : Bool) (fm : FacingMode) (s : CamState) : CamState :=
  if enabled then initCamera supported true fm s else stopCamera s

/-- The `useEffect` on `facingMode`: reinitialize the camera only when the
session is enabled and a stream is installed. -/
def facingEffect (supported enabled : Bool) (fm : FacingMode) (s : CamState) : CamState :=
  if enabled && s.stream.isSome then initCamera supported enabled fm s else s

/-! Concrete traces for the claims about this variant. -/

/-- Disable while the device-open call is in flight, then the call
resolves successfully: enable; disable; open #0 resolves. -/
def disableWhileOpeningTrace : CamState :=
  resolveOpenOk 0 (enabledEffect true false .user (enabledEffect true true .user initState))

/-- The timeout scenario: enable(front), the timer fires at t = 3 with the
open call unresolved. -/
def timedOutTrace : CamState :=
  timerFire (enabledEffect true true .user initState)

/-- The timeout scenario continued: the open call resolves successfully at
t = 3.5. -/
def lateSuccessTrace : CamState :=
  resolveOpenOk 0 timedOutTrace

end UseCameraTimeout

namespace UseCameraSimple

/-! Embedding of the hook variant whose `useEffect` depends on both
`enabled` and `facingMode` and (re)invokes `startCamera` for any change of
either.  `startCamera` here stops the tracks of the current `streamRef`
before issuing the open call but does not null the ref, and there is no
timer. -/

/-- State of the simple (effect-on-both-deps) variant of the hook. -/
structure CamState where
  /-- `streamRef.current` (and the mirrored `stream` state) -/
  streamRef : Option Nat
  /-- the `error` state -/
  error : String
  /-- the `isLoading` state -/
  isLoading : Bool
  /-- the `isReady` state -/
  isReady : Bool
  /-- the `permissionGranted` state (`boolean | null`) -/
  permissionGranted : Option Bool
  /-- in-flight device-open calls -/
  pending : List Nat
  /-- handles the device capability has produced so far -/
  opened : List Nat
  /-- handles whose tracks have been stopped -/
  released : List Nat
  /-- number of device-open calls issued so far (also the next call id) -/
  openCalls : Nat
deriving DecidableEq, Repr

/-- The initial hook state. -/
def initState : CamState :=
  { streamRef := none, error := "", isLoading := false, isReady := false,
    permissionGranted := none, pending := [], opened := [], released := [],
    openCalls := 0 }

/-- `stopCamera` of this variant: stop the ref's tracks, null the ref,
clear `stream`, `isReady`, `isLoading`. -/
def stopCamera (s : CamState) : CamState :=
  { s with
      released := s.released ++ s.streamRef.toList,
      streamRef := none,
      isReady := false,
      isLoading := false }

/-- The synchronous prefix of this variant's `startCamera`: when not
enabled, `stopCamera`; otherwise clear the error, set loading, stop the
tracks of any existing stream (the ref is kept), and issue the device-open
call. -/
def startCameraSync (enabled : Bool) (s : CamState) : CamState :=
  if enabled then
    { s with
        error := "", isLoading := true,
        released := s.released ++ s.streamRef.toList,
        pending := s.pending ++ [s.openCalls],
        openCalls := s.openCalls + 1 }
  else
    stopCamera s

/-- Error-message mapping of this variant's catch block (names
`NotAllowedError`, `NotFoundError`, `NotReadableError`, otherwise
`Camera error: ` followed by the error's message). -/
def startCameraErrorMessage (e : ErrInfo) : String :=
  if e.name = "NotAllowedError" then
    "Camera access denied. Please allow camera access."
  else if e.name = "NotFoundError" then
    "No camera found on this device."
  else if e.name = "NotReadableError" then
    "Camera is already in use by another application."
  else
    "Camera error: " ++ e.message

/-- Continuation after `getUserMedia` resolves with a stream: install the
handle, clear loading, set ready, record the granted permission. -/
def resolveOpenOk (id : Nat) (s : CamState) : CamState :=
  if s.pending.contains id then
    { s with
        pending := s.pending.filter (fun j => j != id),
        opened := s.opened ++ [id],
        streamRef := some id,
        isLoading := false,
        isReady := true,
        permissionGranted := some true }
  else s

/-- Continuation after `getUserMedia` rejects: clear loading and ready,
record the denial when the error is a denial, record the mapped message. -/
def resolveOpenErr (id : Nat) (e : ErrInfo) (s : CamState) : CamState :=
  if s.pending.contains id then
    { s with
        pending := s.pending.filter (fun j => j != id),
        isLoading := false,
        isReady := false,
        permissionGranted :=
          if e.name = "NotAllowedError" then some false else s.permissionGranted,
        error := startCameraErrorMessage e }
  else s

/-- The `useEffect` on `[enabled, facingMode]`: when disabled, stop the
camera and reset the permission flag and error; otherwise (for any change,
a device-preference change included) call `startCamera`. -/
def mainEffect (enabled : Bool) (s : CamState) : CamState :=
  if enabled then
    startCameraSync true s
  else
    { stopCamera s with permissionGranted := none, error := "" }

/-- A session that is enabled and Failed: enable, then the open call
rejects with a not-found error. -/
def failedStateTrace : CamState :=
  resolveOpenErr 0 ⟨"NotFoundError", ""⟩ (mainEffect true initState)

/-- A device-preference change arriving in that Failed state: the effect
reruns with `enabled` still true. -/
def prefChangeInFailedTrace : CamState :=
  mainEffect true failedStateTrace

end UseCameraSimple

/-- The failure taxonomy of the spec
({PermissionDenied, DeviceNotFound, DeviceBusy, ConstraintsUnsupported,
Unsupported, Timeout, Unknown}). -/
inductive Reason
  | PermissionDenied
  | DeviceNotFound
  | DeviceBusy
  | ConstraintsUnsupported
  | Unsupported
  | Timeout
  | Unknown
deriving DecidableEq, Repr

/-- Modelled from the claim's words (the mapping table it asserts):
denial-class → PermissionDenied, not-found-class → DeviceNotFound,
busy/in-use-class → DeviceBusy, any other or unknown → Unknown.  The
classes are concretized to the standard `getUserMedia` rejection names. -/
def claimC4Reason (name : String) : Reason :=
  if name = "NotAllowedError" then .PermissionDenied
  else if name = "NotFoundError" then .DeviceNotFound
  else if name = "NotReadableError" then .DeviceBusy
  else .Unknown

namespace UseCameraVariant2

/-! The only part of the 5000 ms-timeout variant the claims need is its
error mapping, which has the full branch table. -/

/-- Error-message mapping of this variant's camera-init catch block:
`isErr` is the `err instanceof Error` test; when it fails a generic message
is recorded, otherwise the branches on `err.name` apply, defaulting to the
error's own message. -/
def initCameraErrorMessage (isErr : Bool) (name msg : String) : String :=
  if isErr then
    if name = "NotAllowedError" then
      "Camera access denied. Please grant camera permission to continue."
    else if name = "NotFoundError" then
      "No camera found. Please connect a camera device."
    else if name = "NotReadableError" then
      "Camera is already in use by another application. Please close other camera apps and try again."
    else if name = "OverconstrainedError" then
      "Camera settings not supported. Please try switching cameras."
    else if name = "NotSupportedError" then
      "Camera not supported by this browser."
    else msg
  else
    "Unable to access camera. Please check your permissions and try again."

end UseCameraVariant2

/-- Classification of the repository's observable failure messages into the
spec's taxonomy: each denial message names denied access, each not-found
message a missing camera, each busy message another application using the
camera, the overconstrained message unsupported settings, the
not-supported message an unsupporting browser, the timeout messages a
too-long load; every other string is Unknown. -/
def msgReason (m : String) : Reason :=
  if m = UseCameraHook.startCameraErrorMessage "NotAllowedError"
     ∨ m = UseCameraTimeout.initCameraErrorMessage "NotAllowedError"
     ∨ m = UseCameraVariant2.initCameraErrorMessage true "NotAllowedError" ""
     ∨ m = UseCameraSimple.startCameraErrorMessage ⟨"NotAllowedError", ""⟩ then
    .PermissionDenied
  else if m = UseCameraHook.startCameraErrorMessage "NotFoundError"
     ∨ m = UseCameraTimeout.initCameraErrorMessage "NotFoundError"
     ∨ m = UseCameraSimple.startCameraErrorMessage ⟨"NotFoundError", ""⟩ then
    .DeviceNotFound
  else if m = UseCameraTimeout.initCameraErrorMessage "NotReadableError"
     ∨ m = UseCameraVariant2.initCameraErrorMessage true "NotReadableError" ""
     ∨ m = UseCameraSimple.startCameraErrorMessage ⟨"NotReadableError", ""⟩ then
    .DeviceBusy
  else if m = UseCameraVariant2.initCameraErrorMessage true "OverconstrainedError" "" then
    .ConstraintsUnsupported
  else if m = UseCameraVariant2.initCameraErrorMessage true "NotSupportedError" "" then
    .Unsupported
  else if m = UseCameraTimeout.timeoutMessage then
    .Timeout
  else
    .Unknown

namespace UseCameraHook

/-! The concrete trace refuting the single-open-handle invariant: a first
acquisition is started (`enable`), a second one is started while the first
device-open call is still in flight (a device-preference change re-invokes
`startCamera`), then both calls resolve successfully. -/

/-- State after: startCamera; startCamera; first open resolves; second open
resolves. -/
def twoStartsTrace : CamState :=
  resolveOpenOk 1 (resolveOpenOk 0 (startCameraSync true (startCameraSync true initState)))

/-- A session after a denial: Failed(PermissionDenied), nothing in flight. -/
def deniedState : CamState :=
  { initState with error := startCameraErrorMessage "NotAllowedError" }

end UseCameraHook

namespace AIProc

/-! Embedding of `AIProcessor.processMessage` and the request routes it
dispatches to (`src/components/AIProcessor.tsx`).  The outbound HTTP
capability is opaque: one `ApiOutcome` describes how the single network
round-trip of the chosen route goes — the response is not ok (an HTTP
error status), its body fails to parse as JSON, or it parses and carries
an optional candidate text.  Prompt construction only changes the request
payload, never the control flow, so it is not represented. -/

/-- An uploaded file as the processor sees it: its kind tag (`f.type`),
name, extracted content, and object URL (absent when creation failed). -/
structure UploadFile where
  ftype : String
  fname : String
  content : Option String
  url : Option String
deriving DecidableEq, Repr

/-- Outcome of the route's network round-trip. -/
inductive ApiOutcome
  | httpError (status : Nat) (body : String)
  | badJson
  | success (text : Option String)
deriving DecidableEq, Repr

/-- The keyword list of `needsVision`. -/
def visionKeywords : List String :=
  ["see", "look", "what", "how", "describe", "color", "wearing", "holding",
   "picture", "image", "show", "visible", "appearance", "behind", "front",
   "left", "right", "above", "below", "around", "gesture", "posture",
   "expression", "face", "hand", "object", "room", "background", "doing",
   "reading", "watching", "identify", "recognize", "analyze", "observe"]

/-- `needsVision`: does the lower-cased text contain any vision keyword? -/
def needsVision (text : String) : Bool :=
  visionKeywords.any (fun k => containsSub k text.toLower)

/-- The fixed fallback answer of `processMessage`'s catch block. -/
def fallbackMessage : String :=
  "I apologize, but I" ++ apos ++
    "m having trouble processing your request right now. Please try again in a moment."

/-- `processTextOnly`: throws on a non-ok response or an unparsable body,
otherwise answers with the candidate text or its default. -/
def processTextOnly (_text : String) (o : ApiOutcome) : Except String String :=
  match o with
  | .httpError status body =>
      .error ("API request failed: " ++ toString status ++ " - " ++ body)
  | .badJson => .error "response body is not JSON"
  | .success t => .ok (t.getD ("I couldn" ++ apos ++ "t generate a response."))

/-- `processWithFiles`: same failure behaviour, with the files route's
default answer. -/
def processWithFiles (_text : String) (_files : List UploadFile) (o : ApiOutcome) :
    Except String String :=
  match o with
  | .httpError status body =>
      .error ("API request failed: " ++ toString status ++ " - " ++ body)
  | .badJson => .error "response body is not JSON"
  | .success t =>
      .ok (t.getD ("I couldn" ++ apos ++ "t analyze the uploaded files properly."))

/-- `processWithVision`: reading a property of an absent image datum throws
before any request is made (the `uploadedFiles?.find(...)?.url` route can
pass `undefined`); otherwise same failure behaviour as the other routes. -/
def processWithVision (_text : String) (imageData : Option String)
    (_files : List UploadFile) (o : ApiOutcome) : Except String String :=
  match imageData with
  | none => .error "TypeError: imageData is undefined"
  | some _ =>
      match o with
      | .httpError status body =>
          .error ("Vision API request failed: " ++ toString status ++ " - " ++ body)
      | .badJson => .error "response body is not JSON"
      | .success t => .ok (t.getD ("I couldn" ++ apos ++ "t analyze the image."))

/-- The routing of `processMessage`'s try block: camera vision when the
text needs vision and camera image data is present; vision on an uploaded
image when one exists and the text needs vision; the files route when any
files were uploaded; the text-only route otherwise. -/
def route (msg : String) (imageData : Option String) (files : List UploadFile)
    (o : ApiOutcome) : Except String String :=
  let useVision := needsVision msg && imageData.isSome
  let hasUploadedImages := files.any (fun f => f.ftype == "image")
  if useVision then
    processWithVision msg imageData files o
  else if hasUploadedImages && needsVision msg then
    processWithVision msg
      ((files.find? (fun f => f.ftype == "image")).bind (fun f => f.url)) files o
  else if !files.isEmpty then
    processWithFiles msg files o
  else
    processTextOnly msg o

/-- `processMessage`: the routed call inside try/catch — any error becomes
the fixed fallback answer. -/
def processMessage (msg : String) (imageData : Option String)
    (files : List UploadFile) (o : ApiOutcome) : String :=
  match route msg imageData files o with
  | .ok r => r
  | .error _ => fallbackMessage

end AIProc

/-- C1: the claim says at most one ActiveStreamHandle is ever open and
device-open / release calls match 1:1 for every `setEnabled` /
`setDevicePreference` sequence.  Evaluating `useCamera.ts` on the sequence
enable-then-preference-change with the first open still in flight: both
calls resolve, both handles are installed in turn, neither is released —
two device opens, zero releases, two handles open simultaneously. -/
theorem C1_two_streams_leak :
    UseCameraHook.twoStartsTrace.opened = [0, 1] ∧
    UseCameraHook.twoStartsTrace.released = [] ∧
    (UseCameraHook.openHandles UseCameraHook.twoStartsTrace).length = 2 ∧
    UseCameraHook.twoStartsTrace.streamRef = some 1 := by
  decide

/-- C10: `stopCamera` of `useCamera.ts` is idempotent — a second call finds
no handle, releases nothing further and leaves the state exactly as the
first call left it. -/
theorem C10_stop_camera_idempotent :
    (∀ s : UseCameraHook.CamState,
      UseCameraHook.stopCamera (UseCameraHook.stopCamera s) = UseCameraHook.stopCamera s) ∧
    (∀ s : UseCameraSimple.CamState,
      UseCameraSimple.stopCamera (UseCameraSimple.stopCamera s)
        = UseCameraSimple.stopCamera s) := by
  constructor
  · intro s
    cases s
    simp [UseCameraHook.stopCamera]
  · intro s
    cases s
    simp [UseCameraSimple.stopCamera]

/-- C2: the claim says a device-open success arriving after `setEnabled(false)`
is released immediately and never installed.  Evaluating the timeout variant
on enable; disable; open resolves: the late handle is installed, the session
is observed Ready with it, and the handle is never released. -/
theorem C2_late_success_installed :
    UseCameraTimeout.disableWhileOpeningTrace.isReady = true ∧
    UseCameraTimeout.disableWhileOpeningTrace.stream = some 0 ∧
    UseCameraTimeout.disableWhileOpeningTrace.opened = [0] ∧
    UseCameraTimeout.disableWhileOpeningTrace.released = [] := by
  decide

/-- C3 counterexample: in the timeout scenario (enable(front), timer fires
at t = 3, open resolves at t = 3.5) the session does become Ready with the
handle installed, but the "taking too long" failure message is NOT cleared:
the claim's "(and no residual failure message)" is false. -/
theorem C3_residual_error_cx :
    UseCameraTimeout.lateSuccessTrace.isReady = true ∧
    UseCameraTimeout.lateSuccessTrace.stream = some 0 ∧
    UseCameraTimeout.lateSuccessTrace.error ≠ "" := by
  refine ⟨rfl, rfl, ?_⟩
  decide

/-- C3 amended: starting from Disabled, after enable(front) with the open
call unresolved when the 3-unit timer fires, the observed state is TimedOut
(not loading, not ready, no handle) with a message containing "taking too
long"; when the call then resolves at t = 3.5 the state becomes Ready with
the returned handle installed — but the timeout failure message persists
(it is only cleared at the start of the next acquisition). -/
theorem C3_timeout_then_late_success :
    (UseCameraTimeout.timedOutTrace.isLoading = false ∧
     UseCameraTimeout.timedOutTrace.isReady = false ∧
     UseCameraTimeout.timedOutTrace.stream = none ∧
     containsSub "taking too long" UseCameraTimeout.timedOutTrace.error = true) ∧
    (UseCameraTimeout.lateSuccessTrace.isReady = true ∧
     UseCameraTimeout.lateSuccessTrace.stream = some 0 ∧
     UseCameraTimeout.lateSuccessTrace.error = UseCameraTimeout.timeoutMessage) := by
  refine ⟨⟨rfl, rfl, rfl, ?_⟩, rfl, rfl, rfl⟩
  decide

/-- C5: in the timeout variant, the `enabled` effect for true→false
synchronously releases any active handle (its tracks are stopped) and
resets the state to Disabled — no handle, not loading, not ready, timer
cleared; the false→true transition issues exactly one new device-open
call.  The `stopCamera` of `useCamera.ts` likewise releases the current
handle and clears the handle/loading/ready state. -/
theorem C5_disable_releases_enable_acquires :
    (∀ (fm : FacingMode) (s : UseCameraTimeout.CamState),
      (UseCameraTimeout.enabledEffect true false fm s).stream = none ∧
      (UseCameraTimeout.enabledEffect true false fm s).isReady = false ∧
      (UseCameraTimeout.enabledEffect true false fm s).isLoading = false ∧
      (UseCameraTimeout.enabledEffect true false fm s).timerArmed = none ∧
      (UseCameraTimeout.enabledEffect true false fm s).released
        = s.released ++ s.stream.toList ∧
      (UseCameraTimeout.enabledEffect true true fm s).calls = s.calls + 1 ∧
      (UseCameraTimeout.enabledEffect true true fm s).pending.length
        = s.pending.length + 1) ∧
    (∀ s : UseCameraHook.CamState,
      (UseCameraHook.stopCamera s).streamRef = none ∧
      (UseCameraHook.stopCamera s).isReady = false ∧
      (UseCameraHook.stopCamera s).isLoading = false ∧
      (UseCameraHook.stopCamera s).released = s.released ++ s.streamRef.toList) := by
  constructor
  · intro fm s
    simp [UseCameraTimeout.enabledEffect, UseCameraTimeout.stopCamera,
      UseCameraTimeout.initCamera]
  · intro s
    simp [UseCameraHook.stopCamera]

/-- C7 counterexample: in the effect-on-both-deps variant, with the session
enabled and in the Failed state (open call rejected, error recorded, not
ready), a device-preference change reruns the effect and issues a NEW
device-open call — it is not a no-op as the claim states for every
non-Ready state. -/
theorem C7_failed_state_reacquires_cx :
    UseCameraSimple.failedStateTrace.isReady = false ∧
    UseCameraSimple.failedStateTrace.error ≠ "" ∧
    UseCameraSimple.failedStateTrace.openCalls = 1 ∧
    UseCameraSimple.prefChangeInFailedTrace.openCalls = 2 ∧
    UseCameraSimple.prefChangeInFailedTrace.isLoading = true := by
  refine ⟨rfl, ?_, rfl, rfl, rfl⟩
  decide

/-- C7 amended: in the timeout variant the facing-mode effect reacquires
only when a handle is installed — it tears the handle down (its tracks are
stopped) and issues exactly one new device-open call carrying the new
preference — and is a no-op whenever no handle is installed (Disabled,
Opening, Failed, TimedOut); in the effect-on-both-deps variant a preference
change while enabled triggers a new acquisition in every state, Failed
included. -/
theorem C7_preference_change :
    ∀ (fm : FacingMode) (s : UseCameraTimeout.CamState),
      (s.stream = none → UseCameraTimeout.facingEffect true true fm s = s) ∧
      (∀ h : Nat, s.stream = some h →
        (UseCameraTimeout.facingEffect true true fm s).released = s.released ++ [h] ∧
        (UseCameraTimeout.facingEffect true true fm s).stream = none ∧
        (UseCameraTimeout.facingEffect true true fm s).calls = s.calls + 1 ∧
        (UseCameraTimeout.facingEffect true true fm s).pending
          = s.pending ++ [(s.calls, fm)]) := by
  intro fm s
  constructor
  · intro hnone
    simp [UseCameraTimeout.facingEffect, hnone]
  · intro h hsome
    simp [UseCameraTimeout.facingEffect, hsome, UseCameraTimeout.initCamera]

/-- Witness for `C7_preference_change` at a Ready state holding handle 5 and
at the initial (no-handle) state. -/
theorem C7_preference_change_witness :
    (UseCameraTimeout.facingEffect true true .environment UseCameraTimeout.initState
      = UseCameraTimeout.initState) ∧
    (UseCameraTimeout.facingEffect true true .environment
        { UseCameraTimeout.initState with stream := some 5, isReady := true }).released
      = [5] := by
  constructor
  · exact (C7_preference_change .environment UseCameraTimeout.initState).1 rfl
  · exact ((C7_preference_change .environment
      { UseCameraTimeout.initState with stream := some 5, isReady := true }).2 5 rfl).1

/-- C4 counterexample: the claim's table sends busy/in-use-class errors to
DeviceBusy, but `startCamera` of `useCamera.ts` maps `NotReadableError` to
the generic message of the Unknown bucket. -/
theorem C4_busy_not_distinguished_cx :
    msgReason (UseCameraHook.startCameraErrorMessage "NotReadableError") = .Unknown ∧
    claimC4Reason "NotReadableError" = .DeviceBusy ∧
    Reason.Unknown ≠ Reason.DeviceBusy := by
  decide

/-- C4 amended: in `useCamera.ts`'s `startCamera` the mapping is
deterministic with denial-class → PermissionDenied and not-found-class →
DeviceNotFound, but every other error — busy/in-use-class included — falls
into the Unknown bucket; the 5000 ms-timeout variant's camera-init
additionally gives busy/in-use-class its own DeviceBusy reason (and
overconstrained / not-supported their own reasons). -/
theorem C4_error_mapping :
    ∀ (name m : String),
      (name ≠ "NotAllowedError" → name ≠ "NotFoundError" →
        msgReason (UseCameraHook.startCameraErrorMessage name) = .Unknown) ∧
      msgReason (UseCameraHook.startCameraErrorMessage "NotAllowedError")
        = .PermissionDenied ∧
      msgReason (UseCameraHook.startCameraErrorMessage "NotFoundError")
        = .DeviceNotFound ∧
      msgReason (UseCameraVariant2.initCameraErrorMessage true "NotAllowedError" m)
        = .PermissionDenied ∧
      msgReason (UseCameraVariant2.initCameraErrorMessage true "NotFoundError" m)
        = .DeviceNotFound ∧
      msgReason (UseCameraVariant2.initCameraErrorMessage true "NotReadableError" m)
        = .DeviceBusy ∧
      msgReason (UseCameraVariant2.initCameraErrorMessage true "OverconstrainedError" m)
        = .ConstraintsUnsupported ∧
      msgReason (UseCameraVariant2.initCameraErrorMessage true "NotSupportedError" m)
        = .Unsupported := by
  intro name m
  refine ⟨?_, by decide, by decide, rfl, rfl, rfl, rfl, rfl⟩
  intro h1 h2
  rw [UseCameraHook.startCameraErrorMessage, if_neg h1, if_neg h2]
  decide

/-- Witness for `C4_error_mapping` at the busy-class error name. -/
theorem C4_error_mapping_witness :
    msgReason (UseCameraHook.startCameraErrorMessage "NotReadableError") = .Unknown := by
  exact (C4_error_mapping "NotReadableError" "").1 (by decide) (by decide)

/-- C6 counterexample: from Failed(PermissionDenied), one `requestPermission`
call whose probe is granted issues TWO device-open calls (the probe and the
acquisition started by `startCamera`), not exactly one. -/
theorem C6_two_open_calls_cx :
    UseCameraHook.deniedState.openCalls = 0 ∧
    (UseCameraHook.requestPermissionRun true .ok UseCameraHook.deniedState).openCalls = 2 ∧
    (2 : Nat) ≠ 1 := by
  refine ⟨rfl, ?_, by decide⟩
  decide

/-- C6 amended: one `requestPermission` call issues one device-open probe
call; when the probe is denied that is the only device-open call, and when
it is granted the probe's handle is released immediately and exactly one
further device-open (the acquisition) is issued — two device-open calls in
total. -/
theorem C6_request_permission_calls :
    ∀ (s : UseCameraHook.CamState) (e : ErrInfo),
      (UseCameraHook.requestPermissionRun true (.fail e) s).openCalls
        = s.openCalls + 1 ∧
      (UseCameraHook.requestPermissionRun true .ok s).openCalls
        = s.openCalls + 2 ∧
      s.openCalls ∈ (UseCameraHook.requestPermissionRun true .ok s).released := by
  intro s e
  refine ⟨?_, ?_, ?_⟩ <;>
    simp [UseCameraHook.requestPermissionRun, UseCameraHook.requestPermissionSync,
      UseCameraHook.resolveProbeOk, UseCameraHook.resolveProbeErr,
      UseCameraHook.startCameraSync, UseCameraHook.stopCamera]

/-- The error messages of `startCamera`'s catch block are never empty. -/
theorem startCameraErrorMessage_ne_empty (name : String) :
    UseCameraHook.startCameraErrorMessage name ≠ "" := by
  unfold UseCameraHook.startCameraErrorMessage
  split
  · decide
  · split
    · decide
    · decide

/-- The error messages of the 5000 ms-timeout variant's catch block are
never empty provided the error's own message is not empty (the last branch
passes it through). -/
theorem initCameraErrorMessageV2_ne_empty (isErr : Bool) (name msg : String)
    (h : msg ≠ "") : UseCameraVariant2.initCameraErrorMessage isErr name msg ≠ "" := by
  unfold UseCameraVariant2.initCameraErrorMessage
  split
  · split
    · decide
    · split
      · decide
      · split
        · decide
        · split
          · decide
          · split
            · decide
            · exact h
  · decide

/-- C8: every device-open rejection is recovered locally: `startCamera`
records the mapped non-empty message with ready and loading cleared,
`requestPermission`'s catch records a non-empty denial message, and the
5000 ms-timeout variant's camera-init records a non-empty message for every
rejection (whether or not it is an `Error`), its own-message passthrough
branch provided the error carries a message.  All the modelled operations
are total functions into the state type — the failure surfaces only as
state, never as an exception crossing the session boundary. -/
theorem C8_failures_recorded_as_state :
    ∀ (s : UseCameraHook.CamState) (e e2 : ErrInfo),
      e2.message ≠ "" →
      ((UseCameraHook.startCameraRun true (.fail e) s).error
          = UseCameraHook.startCameraErrorMessage e.name ∧
        (UseCameraHook.startCameraRun true (.fail e) s).error ≠ "" ∧
        (UseCameraHook.startCameraRun true (.fail e) s).isReady = false ∧
        (UseCameraHook.startCameraRun true (.fail e) s).isLoading = false) ∧
      (UseCameraHook.requestPermissionRun true (.fail e) s).error ≠ "" ∧
      UseCameraVariant2.initCameraErrorMessage true e2.name e2.message ≠ "" ∧
      UseCameraVariant2.initCameraErrorMessage false e2.name e2.message ≠ "" := by
  intro s e e2 h2
  have hrun : (UseCameraHook.startCameraRun true (.fail e) s).error
      = UseCameraHook.startCameraErrorMessage e.name := by
    simp [UseCameraHook.startCameraRun, UseCameraHook.startCameraSync,
      UseCameraHook.stopCamera, UseCameraHook.resolveOpenErr]
  refine ⟨⟨hrun, ?_, ?_, ?_⟩, ?_, ?_, ?_⟩
  · rw [hrun]; exact startCameraErrorMessage_ne_empty e.name
  · simp [UseCameraHook.startCameraRun, UseCameraHook.startCameraSync,
      UseCameraHook.stopCamera, UseCameraHook.resolveOpenErr]
  · simp [UseCameraHook.startCameraRun, UseCameraHook.startCameraSync,
      UseCameraHook.stopCamera, UseCameraHook.resolveOpenErr]
  · simp [UseCameraHook.requestPermissionRun, UseCameraHook.requestPermissionSync,
      UseCameraHook.resolveProbeErr]
  · exact initCameraErrorMessageV2_ne_empty true e2.name e2.message h2
  · exact initCameraErrorMessageV2_ne_empty false e2.name e2.message h2

/-- Witness for `C8_failures_recorded_as_state`: a concrete denial-class
rejection against the initial state, with a busy-class error carrying a
message for the other variant. -/
theorem C8_failures_recorded_as_state_witness :
    (UseCameraHook.startCameraRun true (.fail ⟨"NotAllowedError", "denied"⟩)
        UseCameraHook.initState).error ≠ "" ∧
    (UseCameraHook.startCameraRun true (.fail ⟨"NotAllowedError", "denied"⟩)
        UseCameraHook.initState).isReady = false := by
  have h := C8_failures_recorded_as_state UseCameraHook.initState
    ⟨"NotAllowedError", "denied"⟩ ⟨"NotReadableError", "device busy"⟩ (by decide)
  exact ⟨h.1.2.1, h.1.2.2.1⟩

/-- C9: `processMessage` never throws — it is a total function into
`String` — and whenever the routed call fails (the response is not ok, or
its body does not parse), the result is the fixed fallback answer, for
every message, optional image datum, and uploaded-file list. -/
theorem C9_process_message_fallback :
    ∀ (msg : String) (imageData : Option String) (files : List AIProc.UploadFile)
      (status : Nat) (body : String),
      AIProc.processMessage msg imageData files (.httpError status body)
        = AIProc.fallbackMessage ∧
      AIProc.processMessage msg imageData files .badJson = AIProc.fallbackMessage := by
  intro msg imageData files status body
  have hv : ∀ (j : Option String) (o : AIProc.ApiOutcome), o ≠ .badJson →
      (∀ t, o ≠ .success t) →
      ∃ er, AIProc.processWithVision msg j files o = .error er := by
    intro j o h1 h2
    cases j with
    | none => exact ⟨_, rfl⟩
    | some v =>
        cases o with
        | httpError st b => exact ⟨_, rfl⟩
        | badJson => exact absurd rfl h1
        | success t => exact absurd rfl (h2 t)
  have hvb : ∀ (j : Option String),
      ∃ er, AIProc.processWithVision msg j files .badJson = .error er := by
    intro j
    cases j with
    | none => exact ⟨_, rfl⟩
    | some v => exact ⟨_, rfl⟩
  have hroute :
      (∃ er, AIProc.route msg imageData files (.httpError status body) = .error er) ∧
      (∃ er, AIProc.route msg imageData files .badJson = .error er) := by
    constructor
    · unfold AIProc.route
      dsimp only
      split
      · exact hv imageData _ (by intro hc; cases hc) (by intro t hc; cases hc)
      · split
        · exact hv _ _ (by intro hc; cases hc) (by intro t hc; cases hc)
        · split
          · exact ⟨_, rfl⟩
          · exact ⟨_, rfl⟩
    · unfold AIProc.route
      dsimp only
      split
      · exact hvb imageData
      · split
        · exact hvb _
        · split
          · exact ⟨_, rfl⟩
          · exact ⟨_, rfl⟩
  obtain ⟨⟨er1, h1⟩, ⟨er2, h2⟩⟩ := hroute
  constructor
  · unfold AIProc.processMessage
    rw [h1]
  · unfold AIProc.processMessage
    rw [h2]

end AlloyEcho
